import Mathlib

/-!
# Verification of the labelable image-rendering pipeline

A shallow embedding of the label rendering core of the `labelable`
repository, faithful to the Python source:

* `src/labelable/templates/elements/base.py`   (`mm_to_px`, `get_bounds_px`)
* `src/labelable/templates/elements/text.py`   (text layout, wrap, auto-scale)
* `src/labelable/templates/elements/qrcode.py` and `datamatrix.py`
* `src/labelable/templates/image_engine.py`    (canvas, dispatch, mask, render)
* `src/labelable/templates/converters/zpl.py` and `epl2.py` (bit packing)
* `src/labelable/models/template.py`           (data model, `validate_data`)

Python machine floats are modelled by exact rationals, Python `int()` by
truncation toward zero, and Python `//` by floor division.  External
capabilities (PIL font measurement and glyph drawing, the qrcode and
pylibdmtx libraries, the ambient clock used by `datetime.now()`) are
modelled as explicit environment parameters, mirroring the fact that the
source resolves them outside the arithmetic core.
-/

namespace Labelable

/-- Python `int()` applied to an exact value: truncation toward zero. -/
def pyTrunc (q : ℚ) : ℤ := if 0 ≤ q then ⌊q⌋ else ⌈q⌉

/-- `BaseElementRenderer.mm_to_px` (elements/base.py line 56):
`int(mm * dpi / 25.4)`. -/
def mm_to_px (mm : ℚ) (dpi : ℤ) : ℤ := pyTrunc (mm * dpi / (254 / 10))

/-! ## The 1-bit canvas

PIL mode-"1" images carry pixel value 0 (black, ink) or 255 (white,
background).  We model a canvas as its dimensions plus an ink predicate:
`pix x y = true` exactly when the PIL pixel at `(x, y)` is 0 (ink). -/

structure Img where
  width : ℕ
  height : ℕ
  pix : ℤ → ℤ → Bool

/-- `Image.paste(top, (px, py))` without a mask: an opaque rectangular
replacement, every pixel of the pasted region is overwritten. -/
def paste (base top : Img) (px py : ℤ) : Img :=
  { base with
    pix := fun x y =>
      if px ≤ x ∧ x < px + top.width ∧ py ≤ y ∧ y < py + top.height then
        top.pix (x - px) (y - py)
      else
        base.pix x y }

/-- Model of `Image.resize((w, h), Image.Resampling.NEAREST)`: each target
pixel samples the source at the scaled centre `(x + 1/2) * srcW / w`. -/
def resizeNearest (src : Img) (w h : ℕ) : Img :=
  { width := w
    height := h
    pix := fun x y =>
      if 0 ≤ x ∧ x < (w : ℤ) ∧ 0 ≤ y ∧ y < (h : ℤ) then
        src.pix ((2 * x + 1) * src.width / (2 * w)) ((2 * y + 1) * src.height / (2 * h))
      else
        false }

/-! ## Device encoders (converters/zpl.py, converters/epl2.py) -/

/-- `bytes_per_row = (width + 7) // 8` (zpl.py line 39, epl2.py line 30). -/
def bytesPerRow (width : ℕ) : ℕ := (width + 7) / 8

/-- One packed byte of the ZPL encoder (zpl.py lines 50-59): 8 pixels,
most-significant bit first, bit set iff the pixel is ink (PIL value 0),
positions past the image width left clear. -/
def zplPackByte (img : Img) (y byteIdx : ℕ) : ℕ :=
  (List.range 8).foldl
    (fun byte_val bit =>
      if byteIdx * 8 + bit < img.width then
        if img.pix (byteIdx * 8 + bit) y then byte_val ||| (1 <<< (7 - bit))
        else byte_val
      else byte_val)
    0

/-- The ZPL encoder's flat byte list (zpl.py lines 46-60): rows top to
bottom, `bytes_per_row` bytes per row. -/
def zplPackedBytes (img : Img) : List ℕ :=
  (List.range img.height).flatMap fun y =>
    (List.range (bytesPerRow img.width)).map fun byteIdx => zplPackByte img y byteIdx

/-- One packed byte of the EPL2 encoder (epl2.py lines 39-47), transcribed
independently from its own source file. -/
def epl2PackByte (img : Img) (y byteIdx : ℕ) : ℕ :=
  (List.range 8).foldl
    (fun byte_val bit =>
      if byteIdx * 8 + bit < img.width then
        if img.pix (byteIdx * 8 + bit) y then byte_val ||| (1 <<< (7 - bit))
        else byte_val
      else byte_val)
    0

/-- The EPL2 encoder's flat binary payload (epl2.py lines 36-48). -/
def epl2PackedBytes (img : Img) : List ℕ :=
  (List.range img.height).flatMap fun y =>
    (List.range (bytesPerRow img.width)).map fun byteIdx => epl2PackByte img y byteIdx

/-- Uppercase hexadecimal digit, as produced by Python `"%X"` formatting. -/
def hexDigitU (n : ℕ) : Char :=
  if n < 10 then Char.ofNat (48 + n) else Char.ofNat (55 + n)

/-- Python `f"{b:02X}"` for a byte value `b < 256`: exactly two uppercase
hex digits (every packed byte is below 256, proved below). -/
def hexByte (b : ℕ) : String :=
  String.mk [hexDigitU (b / 16 % 16), hexDigitU (b % 16)]

/-- `hex_string = "".join(f"{b:02X}" for b in hex_data)` (zpl.py line 63). -/
def zplHexString (img : Img) : String :=
  String.join ((zplPackedBytes img).map hexByte)

/-- ASCII encoding of a string as a byte list. -/
def strBytes (s : String) : List ℕ := s.toList.map Char.toNat

/-- `image_to_zpl` (zpl.py lines 6-81): `^XA`, optional `~SD`, optional
`^LH`, the `^GFA` graphics field, `^XZ`, joined by newlines. -/
def image_to_zpl (img : Img) (label_offset_x label_offset_y : ℤ)
    (darkness : Option ℤ) : List ℕ :=
  let bytes_per_row := bytesPerRow img.width
  let total_bytes := bytes_per_row * img.height
  let zpl_parts : List String :=
    ["^XA"]
      ++ (match darkness with
          | some d => ["~SD" ++ toString d]
          | none => [])
      ++ (if label_offset_x ≠ 0 ∨ label_offset_y ≠ 0 then
            ["^LH" ++ toString label_offset_x ++ "," ++ toString label_offset_y]
          else [])
      ++ ["^FO0,0^GFA," ++ toString total_bytes ++ "," ++ toString total_bytes ++ ","
            ++ toString bytes_per_row ++ "," ++ zplHexString img,
          "^XZ"]
  strBytes (String.intercalate "\n" zpl_parts ++ "\n")

/-- The EPL2 graphics-write header `N\nGW0,0,<bytes_per_row>,<height>,`
(epl2.py line 54). -/
def epl2Header (img : Img) : List ℕ :=
  strBytes ("N\nGW0,0," ++ toString (bytesPerRow img.width) ++ ","
    ++ toString img.height ++ ",")

/-- The EPL2 finalize command `\nP1\n` (epl2.py line 55). -/
def epl2Footer : List ℕ := strBytes "\nP1\n"

/-- `image_to_epl2` (epl2.py lines 6-57): header, raw binary payload,
print command. -/
def image_to_epl2 (img : Img) : List ℕ :=
  epl2Header img ++ epl2PackedBytes img ++ epl2Footer

/-- The spec's decode rule: bit `i` of row `r` is bit `7 - i % 8` of byte
`r * bytesPerRow + i / 8` of the packed payload. -/
def unpackBit (bytes : List ℕ) (bpr r i : ℕ) : Bool :=
  Nat.testBit (bytes.getD (r * bpr + i / 8) 0) (7 - i % 8)

/-! ## Data model (models/template.py) -/

/-- `FieldType` (models/template.py lines 13-22). -/
inductive FieldType where
  | string | integer | float | boolean | datetime | user | select
deriving DecidableEq, Repr

/-- `LabelShape` (models/template.py lines 32-36). -/
inductive LabelShape where
  | rectangle | circle
deriving DecidableEq, Repr

/-- `HorizontalAlignment` (models/template.py lines 39-44). -/
inductive HorizontalAlignment where
  | left | center | right
deriving DecidableEq, Repr

/-- `VerticalAlignment` (models/template.py lines 47-52). -/
inductive VerticalAlignment where
  | top | middle | bottom
deriving DecidableEq, Repr

/-- `ErrorCorrectionLevel` (models/template.py lines 55-61). -/
inductive ErrorCorrectionLevel where
  | L | M | Q | H
deriving DecidableEq, Repr

/-- A context value: an already-validated scalar (string, int, float or
bool).  Python floats are modelled by exact rationals. -/
inductive Value where
  | VStr (s : String)
  | VInt (n : ℤ)
  | VFloat (q : ℚ)
  | VBool (b : Bool)
deriving DecidableEq, Repr

open Value

/-- Python `str(value)` on a context scalar.  The float case is a stand-in
for CPython's shortest-repr float formatting (never the empty string);
no claim evaluates it on a concrete float. -/
def pyStr : Value → String
  | VStr s => s
  | VInt n => toString n
  | VBool b => if b then "True" else "False"
  | VFloat q => if q.den = 1 then toString q.num ++ ".0"
                else toString q.num ++ "/" ++ toString q.den

/-- Python truthiness `bool(value)` on a context scalar. -/
def pyBool : Value → Bool
  | VStr s => s ≠ ""
  | VInt n => n ≠ 0
  | VBool b => b
  | VFloat q => q ≠ 0

/-- Python `str.lower()` for the ASCII strings this pipeline compares
(format names, boolean words). -/
def pyLower (s : String) : String :=
  String.mk (s.toList.map fun c =>
    if 65 ≤ c.toNat ∧ c.toNat ≤ 90 then Char.ofNat (c.toNat + 32) else c)

/-- A field-value context: Python dict modelled as an ordered association
list with unique keys. -/
abbrev Context := List (String × Value)

/-- `data.get(name)` / `data[name]`: first binding of the key. -/
def ctxGet (ctx : Context) (k : String) : Option Value :=
  (ctx.find? fun kv => kv.1 = k).map (·.2)

/-- `result[name] = value`: overwrite in place if present, else append. -/
def ctxSet (ctx : Context) (k : String) (v : Value) : Context :=
  if ctx.any (fun kv => kv.1 = k) then
    ctx.map fun kv => if kv.1 = k then (k, v) else kv
  else
    ctx ++ [(k, v)]

/-- `BoundingBox` (models/template.py lines 64-70). -/
structure BoundingBox where
  x_mm : ℚ
  y_mm : ℚ
  width_mm : ℚ
  height_mm : ℚ
deriving DecidableEq, Repr

/-- `TextElement` (models/template.py lines 73-87). -/
structure TextElement where
  field : Option String := none
  static_text : Option String := none
  bounds : BoundingBox
  font : String := "DejaVuSans"
  font_size : ℕ := 14
  alignment : HorizontalAlignment := .left
  vertical_align : VerticalAlignment := .top
  wrap : Bool := false
  auto_scale : Bool := false
  circle_aware : Bool := false
  line_spacing : ℚ := 1
deriving DecidableEq, Repr

/-- `QRCodeElement` (models/template.py lines 90-105).  The source fields
`prefix`/`suffix` are named `pfx`/`sfx` here. -/
structure QRCodeElement where
  field : String
  x_mm : ℚ
  y_mm : ℚ
  size_mm : ℚ
  error_correction : ErrorCorrectionLevel := .M
  pfx : String := ""
  sfx : String := ""
deriving DecidableEq, Repr

/-- `DataMatrixElement` (models/template.py lines 108-122). -/
structure DataMatrixElement where
  field : String
  x_mm : ℚ
  y_mm : ℚ
  size_mm : ℚ
  pfx : String := ""
  sfx : String := ""
deriving DecidableEq, Repr

/-- `Code128Element` (models/template.py lines 125-139). -/
structure Code128Element where
  field : String
  x_mm : ℚ
  y_mm : ℚ
  height_mm : ℚ
  module_width_mm : ℚ := 3 / 10
  pfx : String := ""
  sfx : String := ""
deriving DecidableEq, Repr

/-- `LabelElement` (models/template.py lines 143-146): closed
discriminated union of the four element kinds. -/
inductive LabelElement where
  | text (e : TextElement)
  | qrcode (e : QRCodeElement)
  | datamatrix (e : DataMatrixElement)
  | code128 (e : Code128Element)
deriving DecidableEq, Repr

/-- `LabelDimensions` (models/template.py lines 149-154). -/
structure LabelDimensions where
  width_mm : ℚ := 0
  height_mm : ℚ := 0
  diameter_mm : Option ℚ := none
deriving DecidableEq, Repr

/-- `TemplateField` (models/template.py lines 157-166).  `description` and
`options` carry no rendering semantics and are omitted. -/
structure TemplateField where
  name : String
  type : FieldType := .string
  required : Bool := true
  default : Option Value := none
  format : String := ""
deriving DecidableEq, Repr

/-- `TemplateConfig` (models/template.py lines 169-192), restricted to the
fields consumed by the image engine. -/
structure TemplateConfig where
  name : String
  dimensions : LabelDimensions
  fields : List TemplateField := []
  shape : LabelShape := .rectangle
  dpi : ℤ := 203
  elements : List LabelElement := []
  font_paths : List String := []
  label_offset_x_mm : ℚ := 0
  label_offset_y_mm : ℚ := 0
  darkness : Option ℤ := none
deriving DecidableEq, Repr

/-! ## Context validation (models/template.py `validate_data`) -/

/-- `DEFAULT_DATETIME_FORMAT` (models/template.py line 10). -/
def DEFAULT_DATETIME_FORMAT : String := "%Y-%m-%d %H:%M"

/-- Python `int(value)` coercion (template.py line 227).  String parsing
is modelled by `String.toInt?` (sign and decimal digits). -/
def pyIntCoerce : Value → Except String ℤ
  | VInt n => .ok n
  | VBool b => .ok (if b then 1 else 0)
  | VFloat q => .ok (pyTrunc q)
  | VStr s =>
    match s.trim.toInt? with
    | some n => .ok n
    | none => .error ("invalid literal for int() with base 10: '" ++ s ++ "'")

/-- Python `float(value)` string parsing, modelled for plain decimal
forms `[-]digits[.digits]`. -/
def pyParseFloat (s : String) : Option ℚ :=
  let t := s.trim
  match t.splitOn "." with
  | [a] => a.toInt?.map fun n => (n : ℚ)
  | [a, b] =>
    match a.toInt? with
    | some n =>
      if b ≠ "" ∧ b.toList.all Char.isDigit then
        let frac : ℚ := (b.toNat! : ℚ) / ((10 : ℚ) ^ b.length)
        some (if t.startsWith "-" then (n : ℚ) - frac else (n : ℚ) + frac)
      else none
    | none => none
  | _ => none

/-- Python `float(value)` coercion (template.py line 229). -/
def pyFloatCoerce : Value → Except String ℚ
  | VFloat q => .ok q
  | VInt n => .ok (n : ℚ)
  | VBool b => .ok (if b then 1 else 0)
  | VStr s =>
    match pyParseFloat s with
    | some q => .ok q
    | none => .error ("could not convert string to float: '" ++ s ++ "'")

/-- One iteration of the `validate_data` field loop
(models/template.py lines 213-243). -/
def applyField (nowStr : String → String) (data : Context) (field : TemplateField)
    (result : Context) : Except String Context :=
  if field.type = .datetime then
    let fmt := if field.format ≠ "" then field.format else DEFAULT_DATETIME_FORMAT
    .ok (ctxSet result field.name (VStr (nowStr fmt)))
  else if field.type = .user then
    .ok (ctxSet result field.name ((ctxGet data field.name).getD (VStr "")))
  else
    match ctxGet data field.name with
    | some value =>
      if field.type = .integer then
        (pyIntCoerce value).map fun n => ctxSet result field.name (VInt n)
      else if field.type = .float then
        (pyFloatCoerce value).map fun q => ctxSet result field.name (VFloat q)
      else if field.type = .boolean then
        let b :=
          match value with
          | VBool b => b
          | VStr s => decide (pyLower s ∈ ["true", "1", "yes", "on"])
          | v => pyBool v
        .ok (ctxSet result field.name (VBool b))
      else
        .ok (ctxSet result field.name (VStr (pyStr value)))
    | none =>
      match field.default with
      | some d => .ok (ctxSet result field.name d)
      | none =>
        if field.required then
          .error ("Missing required field: " ++ field.name)
        else
          .ok result

/-- The `validate_data` field loop over a list of fields. -/
def validateFields (nowStr : String → String) (data : Context) :
    List TemplateField → Context → Except String Context
  | [], result => .ok result
  | f :: rest, result =>
    match applyField nowStr data f result with
    | .error e => .error e
    | .ok r => validateFields nowStr data rest r

/-- `TemplateConfig.validate_data` (models/template.py lines 201-245):
start from the pass-through of non-field keys, then process each field in
declaration order.  `nowStr` stands for `datetime.now().strftime`. -/
def validate_data (nowStr : String → String) (tc : TemplateConfig)
    (data : Context) : Except String Context :=
  let result := data.filter fun kv => ¬ tc.fields.any fun f => f.name = kv.1
  validateFields nowStr data tc.fields result

/-! ## External capabilities

The pipeline consumes PIL text measurement/drawing, the qrcode and
pylibdmtx codecs, resolved outside the arithmetic core; they enter the
embedding as an explicit environment. -/

/-- A font handle: `FontManager.get_font(name, size)` is determined by
the (name, size) pair. -/
abbrev Font := String × ℕ

/-- An integer bounding box as returned by `draw.textbbox((0, 0), ...)`. -/
structure BBoxI where
  x0 : ℤ
  y0 : ℤ
  x1 : ℤ
  y1 : ℤ
deriving DecidableEq, Repr

/-- The external capabilities consumed by a render:
`measure` models `draw.textbbox((0, 0), line, font)`, `drawText` models
`draw.text((x, y), line, font, fill="black")`, `qrMake` models
`qrcode.QRCode(...).make_image` (box_size 10, border 0) as a 1-bit image,
`dmEncode` models `pylibdmtx.encode` (`none` when encoding raises). -/
structure RenderEnv where
  measure : Font → String → BBoxI
  drawText : Img → ℤ × ℤ → String → Font → Img
  qrAvailable : Bool := true
  qrMake : String → ℕ → Img
  dmAvailable : Bool := true
  dmEncode : String → Option Img

/-! ## Text element renderer (elements/text.py) -/

/-- `MIN_FONT_SIZE` (text.py line 22). -/
def MIN_FONT_SIZE : ℕ := 6

/-- Python `str.split()` on a character list: split on whitespace runs,
dropping empties, accumulating the current word reversed. -/
def pySplitAux : List Char → List Char → List String
  | [], cur => if cur ≠ [] then [String.mk cur.reverse] else []
  | c :: rest, cur =>
    if c.isWhitespace then
      (if cur ≠ [] then [String.mk cur.reverse] else []) ++ pySplitAux rest []
    else pySplitAux rest (c :: cur)

/-- Python `str.split()`: split on whitespace runs, dropping empties. -/
def pySplit (s : String) : List String := pySplitAux s.toList []

/-- Python `str.strip()`: drop leading and trailing whitespace. -/
def pyStrip (s : String) : String :=
  String.mk (((s.toList.dropWhile Char.isWhitespace).reverse.dropWhile
    Char.isWhitespace).reverse)

/-- `TextElementRenderer._get_chord_width` (text.py lines 309-339):
`int(2 * sqrt(r² - yoff²))` equals `Nat.sqrt (4 * (r² - yoff²))` exactly,
clamped to the box width.  The `box_x` parameter is unused in the source
body as well. -/
def get_chord_width (y : ℤ) (center : ℤ × ℤ) (radius : ℤ)
    (box_x box_width : ℤ) : ℤ :=
  let y_offset := |y - center.2|
  if y_offset ≥ radius then 0
  else
    let d := (radius * radius - y_offset * y_offset).toNat
    min ((Nat.sqrt (4 * d) : ℕ) : ℤ) box_width

/-- Python `int(a - sqrt(d))` for integer `a` and natural `d`:
truncation toward zero of an exact real difference. -/
def intSubSqrt (a : ℤ) (d : ℕ) : ℤ :=
  let s : ℤ := Nat.sqrt d
  if Nat.sqrt d * Nat.sqrt d = d then a - s
  else if a - s > 0 then a - s - 1
  else a - s

/-- `TextElementRenderer._get_chord_start` (text.py lines 341-367):
`max(int(cx - sqrt(r² - yoff²)), box_x)`. -/
def get_chord_start (y : ℤ) (center : ℤ × ℤ) (radius : ℤ) (box_x : ℤ) : ℤ :=
  let y_offset := |y - center.2|
  if y_offset ≥ radius then box_x
  else max (intSubSqrt center.1 ((radius * radius - y_offset * y_offset).toNat)) box_x

/-- The word-accumulation loop of `_wrap_text` (text.py lines 280-305),
carrying the emitted lines, the current line and the current Y cursor. -/
def wrapLoop (env : RenderEnv) (font : Font) (max_width : ℤ)
    (circle_center : Option (ℤ × ℤ)) (circle_radius : Option ℤ)
    (line_height : ℤ) :
    List String → List String → List String → ℤ → List String
  | [], lines, current_line, _ =>
    if current_line ≠ [] then lines ++ [String.intercalate " " current_line]
    else lines
  | word :: rest, lines, current_line, current_y =>
    let available_width :=
      match circle_center, circle_radius with
      | some c, some r =>
        if r ≠ 0 then
          get_chord_width (current_y + Int.fdiv line_height 2) c r 0 max_width
        else max_width
      | _, _ => max_width
    let test_line := String.intercalate " " (current_line ++ [word])
    let bbox := env.measure font test_line
    let test_width := bbox.x1 - bbox.x0
    if test_width ≤ available_width then
      wrapLoop env font max_width circle_center circle_radius line_height
        rest lines (current_line ++ [word]) current_y
    else if current_line ≠ [] then
      wrapLoop env font max_width circle_center circle_radius line_height
        rest (lines ++ [String.intercalate " " current_line]) [word]
        (current_y + line_height)
    else
      wrapLoop env font max_width circle_center circle_radius line_height
        rest lines [word] current_y

/-- `TextElementRenderer._wrap_text` (text.py lines 242-307): greedy wrap,
optionally chord-constrained per emitted line. -/
def wrap_text (env : RenderEnv) (text : String) (font : Font) (max_width : ℤ)
    (circle_center : Option (ℤ × ℤ) := none) (circle_radius : Option ℤ := none)
    (start_y : ℤ := 0) : List String :=
  let words := pySplit text
  if words = [] then []
  else
    let bbox := env.measure font "Ay"
    let line_height := bbox.y1 - bbox.y0
    wrapLoop env font max_width circle_center circle_radius line_height
      words [] [] start_y

/-- `TextElementRenderer._text_fits` (text.py lines 194-240): wrap (with
no circle parameters), then compare the plain sum of line heights with the
box height and every line width with the full box width. -/
def text_fits (env : RenderEnv) (text : String) (elt : TextElement)
    (width height : ℤ) (font_size : ℕ) : Bool :=
  let font : Font := (elt.font, font_size)
  let lines := if elt.wrap then wrap_text env text font width else [text]
  let total_height :=
    (lines.map fun line =>
      let bbox := env.measure font line
      bbox.y1 - bbox.y0).sum
  if total_height > height then false
  else if lines.any fun line =>
      let bbox := env.measure font line
      bbox.x1 - bbox.x0 > width then false
  else true

/-- The binary-search loop of `_find_optimal_font_size` (text.py lines
185-191): `SCALE_TOLERANCE = 2`; narrow toward larger sizes on a fit,
return the lower bound. -/
def fontSizeLoop (fits : ℕ → Bool) (min_size max_size : ℕ) : ℕ :=
  if h : max_size - min_size > 2 then
    if fits ((min_size + max_size) / 2) then
      fontSizeLoop fits ((min_size + max_size) / 2) max_size
    else
      fontSizeLoop fits min_size ((min_size + max_size) / 2)
  else min_size
termination_by max_size - min_size
decreasing_by all_goals omega

/-- `TextElementRenderer._find_optimal_font_size` (text.py lines 158-192). -/
def find_optimal_font_size (env : RenderEnv) (text : String) (elt : TextElement)
    (width height : ℤ) : ℕ :=
  fontSizeLoop (fun mid_size => text_fits env text elt width height mid_size)
    MIN_FONT_SIZE elt.font_size

/-- Text resolution (text.py lines 37-46): a truthy `field` takes
priority (context lookup, missing keys read as `""`), else truthy
`static_text`, else nothing; the caller no-ops on the empty result. -/
def resolveText (elt : TextElement) (ctx : Context) : String :=
  if elt.field.getD "" ≠ "" then
    pyStr ((ctxGet ctx (elt.field.getD "")).getD (VStr ""))
  else if elt.static_text.getD "" ≠ "" then elt.static_text.getD ""
  else ""

/-- The per-line drawing loop of `TextElementRenderer.render` (text.py
lines 101-156), over `zip lines line_heights`, carrying the Y cursor. -/
def drawLines (env : RenderEnv) (elt : TextElement) (font : Font)
    (circle_center : Option (ℤ × ℤ)) (circle_radius : Option ℤ)
    (x width spaced_line_height : ℤ) (spacing : ℚ) :
    List (String × ℤ) → ℤ → Img → Img
  | [], _, img => img
  | (line, lh) :: rest, current_y, img =>
    if pyStrip line = "" then
      drawLines env elt font circle_center circle_radius x width
        spaced_line_height spacing rest (current_y + spaced_line_height) img
    else
      let chord_y := current_y + Int.fdiv lh 2
      let avail_start : ℤ × ℤ :=
        match circle_center, circle_radius with
        | some c, some r =>
          if r ≠ 0 then (get_chord_width chord_y c r x width, get_chord_start chord_y c r x)
          else (width, x)
        | _, _ => (width, x)
      let available_width := avail_start.1
      let line_start := avail_start.2
      let bbox := env.measure font line
      let line_width := bbox.x1 - bbox.x0
      let line_x :=
        match elt.alignment with
        | .center => line_start + Int.fdiv (available_width - line_width) 2
        | .right => line_start + available_width - line_width
        | .left => line_start
      let img' := env.drawText img (line_x, current_y) line font
      drawLines env elt font circle_center circle_radius x width
        spaced_line_height spacing rest
        (current_y + pyTrunc ((lh : ℚ) * spacing)) img'

/-- `TextElementRenderer.render` (text.py lines 28-156). -/
def renderText (env : RenderEnv) (elt : TextElement) (ctx : Context)
    (tmpl : TemplateConfig) (img : Img) : Img :=
  let text := resolveText elt ctx
  if text = "" then img
  else
    let dpi := tmpl.dpi
    let x := mm_to_px elt.bounds.x_mm dpi
    let y := mm_to_px elt.bounds.y_mm dpi
    let width := mm_to_px elt.bounds.width_mm dpi
    let height := mm_to_px elt.bounds.height_mm dpi
    let font_size :=
      if elt.auto_scale then find_optimal_font_size env text elt width height
      else elt.font_size
    let font : Font := (elt.font, font_size)
    let circ : Option (ℤ × ℤ) × Option ℤ :=
      if elt.circle_aware ∧ tmpl.shape = .circle then
        if tmpl.dimensions.diameter_mm.getD 0 ≠ 0 then
          let radius_px := mm_to_px (tmpl.dimensions.diameter_mm.getD 0 / 2) dpi
          (some (radius_px, radius_px), some radius_px)
        else (none, none)
      else (none, none)
    let circle_center := circ.1
    let circle_radius := circ.2
    let lines :=
      if elt.wrap then
        wrap_text env text font width circle_center circle_radius y
      else [text]
    let line_heights := lines.map fun line =>
      let bbox := env.measure font line
      bbox.y1 - bbox.y0
    let spacing_multiplier := elt.line_spacing
    let base_line_height : ℤ :=
      match line_heights with
      | [] => (font_size : ℤ)
      | h :: t => t.foldl max h
    let spaced_line_height := pyTrunc ((base_line_height : ℚ) * spacing_multiplier)
    let total_height :=
      if line_heights.length > 1 then
        line_heights.sum +
          pyTrunc (((line_heights.length - 1 : ℕ) : ℚ) * (base_line_height : ℚ)
            * (spacing_multiplier - 1))
      else line_heights.sum
    let current_y :=
      match elt.vertical_align with
      | .middle => y + Int.fdiv (height - total_height) 2
      | .bottom => y + height - total_height
      | .top => y
    drawLines env elt font circle_center circle_radius x width
      spaced_line_height spacing_multiplier (lines.zip line_heights) current_y img

/-! ## QR code and DataMatrix renderers (elements/qrcode.py,
elements/datamatrix.py) -/

/-- `ERROR_CORRECTION_MAP` (qrcode.py lines 15-20); every level is
mapped, the `.get` default `0` is unreachable. -/
def errorCorrectionInt : ErrorCorrectionLevel → ℕ
  | .L => 1
  | .M => 0
  | .Q => 3
  | .H => 2

/-- The generated-and-resized QR symbol image (qrcode.py lines 71-94):
an exact `size × size` 1-bit square. -/
def qrSymbol (env : RenderEnv) (elt : QRCodeElement) (data : String)
    (size : ℤ) : Img :=
  resizeNearest (env.qrMake data (errorCorrectionInt elt.error_correction))
    size.toNat size.toNat

/-- `QRCodeElementRenderer.render` (qrcode.py lines 35-101): capability
check, empty-payload no-op, then an opaque centred paste. -/
def renderQR (env : RenderEnv) (elt : QRCodeElement) (ctx : Context)
    (tmpl : TemplateConfig) (img : Img) : Img :=
  if ¬ env.qrAvailable then img
  else
    let field_value := pyStr ((ctxGet ctx elt.field).getD (VStr ""))
    if field_value = "" then img
    else
      let data := elt.pfx ++ field_value ++ elt.sfx
      let dpi := tmpl.dpi
      let center_x := mm_to_px elt.x_mm dpi
      let center_y := mm_to_px elt.y_mm dpi
      let size := mm_to_px elt.size_mm dpi
      let qr_image := qrSymbol env elt data size
      paste img qr_image (center_x - Int.fdiv size 2) (center_y - Int.fdiv size 2)

/-- The encoded-and-resized DataMatrix symbol (datamatrix.py lines 57-70);
`none` when `pylibdmtx.encode` raises (the renderer then no-ops). -/
def dmSymbol (env : RenderEnv) (data : String) (size : ℤ) : Option Img :=
  (env.dmEncode data).map fun enc => resizeNearest enc size.toNat size.toNat

/-- `DataMatrixElementRenderer.render` (datamatrix.py lines 27-77). -/
def renderDM (env : RenderEnv) (elt : DataMatrixElement) (ctx : Context)
    (tmpl : TemplateConfig) (img : Img) : Img :=
  if ¬ env.dmAvailable then img
  else
    let field_value := pyStr ((ctxGet ctx elt.field).getD (VStr ""))
    if field_value = "" then img
    else
      let data := elt.pfx ++ field_value ++ elt.sfx
      let dpi := tmpl.dpi
      let center_x := mm_to_px elt.x_mm dpi
      let center_y := mm_to_px elt.y_mm dpi
      let size := mm_to_px elt.size_mm dpi
      match dmSymbol env data size with
      | none => img
      | some dm_image =>
        paste img dm_image (center_x - Int.fdiv size 2) (center_y - Int.fdiv size 2)

/-! ## Engine orchestration (image_engine.py) -/

/-- `ImageTemplateEngine._render_element` (image_engine.py lines 203-225):
an `isinstance` chain over Text, QRCode and DataMatrix.  The source has no
branch for `Code128Element`; such an element falls through the chain and
the canvas is returned unchanged. -/
def render_element (env : RenderEnv) (element : LabelElement) (ctx : Context)
    (tmpl : TemplateConfig) (img : Img) : Img :=
  match element with
  | .text e => renderText env e ctx tmpl img
  | .qrcode e => renderQR env e ctx tmpl img
  | .datamatrix e => renderDM env e ctx tmpl img
  | .code128 _ => img

/-- The element loop of `render` (image_engine.py lines 92-93). -/
def renderElements (env : RenderEnv) (ctx : Context) (tmpl : TemplateConfig)
    (elements : List LabelElement) (img : Img) : Img :=
  elements.foldl (fun acc e => render_element env e ctx tmpl acc) img

/-- `ImageTemplateEngine._create_image` (image_engine.py lines 175-201)
in 1-bit mode: `int()`-truncated pixel dimensions, white background. -/
def create_image (tmpl : TemplateConfig) : Img :=
  let dpi := tmpl.dpi
  let dims : ℕ × ℕ :=
    if tmpl.shape = .circle ∧ tmpl.dimensions.diameter_mm.getD 0 ≠ 0 then
      let diameter_px := pyTrunc (tmpl.dimensions.diameter_mm.getD 0 * dpi / (254 / 10))
      (diameter_px.toNat, diameter_px.toNat)
    else
      ((pyTrunc (tmpl.dimensions.width_mm * dpi / (254 / 10))).toNat,
       (pyTrunc (tmpl.dimensions.height_mm * dpi / (254 / 10))).toNat)
  { width := dims.1, height := dims.2, pix := fun _ _ => false }

/-- Membership in the filled ellipse `[0, 0, w-1, h-1]`, a model of PIL's
`ImageDraw.ellipse` rasterization used by `_apply_circle_mask`. -/
def insideEllipse (w h : ℕ) (x y : ℤ) : Bool :=
  (2 * x - ((w : ℤ) - 1)) ^ 2 * ((h : ℤ) - 1) ^ 2
    + (2 * y - ((h : ℤ) - 1)) ^ 2 * ((w : ℤ) - 1) ^ 2
    ≤ ((w : ℤ) - 1) ^ 2 * ((h : ℤ) - 1) ^ 2

/-- `ImageTemplateEngine._apply_circle_mask` (image_engine.py lines
227-265), print path: pixels outside the ellipse forced to background. -/
def apply_circle_mask (tmpl : TemplateConfig) (img : Img) : Img :=
  if tmpl.dimensions.diameter_mm.getD 0 = 0 then img
  else
    { width := img.width
      height := img.height
      pix := fun x y =>
        if 0 ≤ x ∧ x < (img.width : ℤ) ∧ 0 ≤ y ∧ y < (img.height : ℤ)
            ∧ insideEllipse img.width img.height x y then
          img.pix x y
        else false }

/-- `ImageTemplateEngine.render` (image_engine.py lines 56-116):
validate, allocate the canvas, paint elements in declared order, mask
circles, then encode.  A `ValueError` from validation is wrapped as
`TemplateError(f"Invalid template data: {e}")`; any format other than
(case-insensitive) `"epl2"` takes the ZPL branch. -/
def render (env : RenderEnv) (nowStr : String → String) (tmpl : TemplateConfig)
    (context : Context) (output_format : String) : Except String (List ℕ) :=
  match validate_data nowStr tmpl context with
  | .error e => .error ("Invalid template data: " ++ e)
  | .ok validated_context =>
    let image := create_image tmpl
    let image := renderElements env validated_context tmpl tmpl.elements image
    let image :=
      if tmpl.shape = .circle then apply_circle_mask tmpl image else image
    if pyLower output_format = "epl2" then .ok (image_to_epl2 image)
    else
      let offset_x := pyTrunc (tmpl.label_offset_x_mm * tmpl.dpi / (254 / 10))
      let offset_y := pyTrunc (tmpl.label_offset_y_mm * tmpl.dpi / (254 / 10))
      .ok (image_to_zpl image offset_x offset_y tmpl.darkness)

/-! ## Helper lemmas: bit packing -/

/-- Accumulating `|=` of single bits: the result's bit `j` is the
accumulator's bit `j` or a contribution `7 - bit = j` from a selected
position. -/
theorem testBit_orFold (g : ℕ → Bool) (l : List ℕ) (a j : ℕ) :
    Nat.testBit
      (l.foldl (fun acc bit => if g bit then acc ||| (1 <<< (7 - bit)) else acc) a) j
      = (Nat.testBit a j || l.any fun bit => g bit && decide (7 - bit = j)) := by
  induction l generalizing a with
  | nil => simp
  | cons b l ih =>
    simp only [List.foldl_cons, List.any_cons]
    rw [ih]
    cases hg : g b
    · simp
    · have hpow : (1 <<< (7 - b)) = 2 ^ (7 - b) := by
        rw [Nat.shiftLeft_eq, one_mul]
      rw [if_pos rfl, hpow, Nat.testBit_lor, Nat.testBit_two_pow]
      simp [Bool.or_assoc]

/-- Accumulating `|=` of bits below position 8 stays below 256. -/
theorem orFold_lt_256 (g : ℕ → Bool) :
    ∀ (l : List ℕ) (a : ℕ), a < 256 → (∀ b ∈ l, b ≤ 7) →
      l.foldl (fun acc bit => if g bit then acc ||| (1 <<< (7 - bit)) else acc) a < 256 := by
  intro l
  induction l with
  | nil => intro a ha _; simpa using ha
  | cons b l ih =>
    intro a ha hl
    simp only [List.foldl_cons]
    apply ih
    · cases hg : g b
      · simpa using ha
      · rw [if_pos rfl]
        have hb : (1 <<< (7 - b)) < 256 := by
          rw [Nat.shiftLeft_eq, one_mul]
          calc 2 ^ (7 - b) ≤ 2 ^ 7 := Nat.pow_le_pow_right (by norm_num) (by omega)
            _ < 256 := by norm_num
        exact Nat.or_lt_two_pow (n := 8) ha hb
    · intro b' hb'
      exact hl b' (List.mem_cons_of_mem _ hb')

/-- The nested per-pixel conditional of the packing loop, rewritten as a
single guard. -/
theorem packStep_eq (img : Img) (y byteIdx : ℕ) :
    (fun (byte_val bit : ℕ) =>
        if byteIdx * 8 + bit < img.width then
          if img.pix (byteIdx * 8 + bit) y then byte_val ||| (1 <<< (7 - bit))
          else byte_val
        else byte_val)
      = fun byte_val bit =>
        if (decide (byteIdx * 8 + bit < img.width) && img.pix (byteIdx * 8 + bit) y) then
          byte_val ||| (1 <<< (7 - bit))
        else byte_val := by
  funext byte_val bit
  by_cases h1 : byteIdx * 8 + bit < img.width
  · cases h2 : img.pix (byteIdx * 8 + bit) y <;> simp [h1, h2]
  · simp [h1]

/-- Bit `7 - b` of a packed byte reads pixel `byteIdx * 8 + b`, `false`
past the image width. -/
theorem zplPackByte_testBit (img : Img) (y k b : ℕ) (hb : b < 8) :
    Nat.testBit (zplPackByte img y k) (7 - b)
      = (decide (k * 8 + b < img.width) && img.pix (k * 8 + b) y) := by
  unfold zplPackByte
  rw [packStep_eq img y k, testBit_orFold]
  have hrange : List.range 8 = [0, 1, 2, 3, 4, 5, 6, 7] := rfl
  rw [hrange]
  simp only [Nat.zero_testBit, Bool.false_or]
  interval_cases b <;> simp

/-- Every packed byte is an 8-bit value. -/
theorem zplPackByte_lt_256 (img : Img) (y k : ℕ) : zplPackByte img y k < 256 := by
  unfold zplPackByte
  rw [packStep_eq img y k]
  refine orFold_lt_256 _ _ _ (by norm_num) ?_
  intro b hb
  have : b < 8 := List.mem_range.mp hb
  omega

/-- The two encoders share one packing routine byte for byte. -/
theorem epl2PackedBytes_eq_zpl (img : Img) : epl2PackedBytes img = zplPackedBytes img := rfl

/-- Indexing a row-major flat list of fixed-width rows. -/
theorem getD_flatMap_range (f : ℕ → ℕ → ℕ) (bpr : ℕ) :
    ∀ (ys : List ℕ) (r c : ℕ), r < ys.length → c < bpr →
      ((ys.flatMap fun y => (List.range bpr).map (f y)).getD (r * bpr + c) 0)
        = f (ys.getD r 0) c := by
  intro ys
  induction ys with
  | nil => intro r c hr _; simp at hr
  | cons y ys ih =>
    intro r c hr hc
    rw [List.flatMap_cons]
    cases r with
    | zero =>
      rw [List.getD_append _ _ _ _ (by simpa using hc)]
      simp only [Nat.zero_mul, Nat.zero_add]
      rw [List.getD_eq_getElem _ _ (by simpa using hc)]
      simp
    | succ r' =>
      have hlen : ((List.range bpr).map (f y)).length = bpr := by simp
      rw [List.getD_append_right _ _ _ _ (by rw [hlen]; nlinarith [Nat.succ_mul r' bpr])]
      rw [hlen]
      have harith : (r' + 1) * bpr + c - bpr = r' * bpr + c := by
        rw [Nat.succ_mul]; omega
      rw [harith, ih r' c (by simpa using hr) hc]
      simp

/-- The packed payload holds `bytesPerRow * height` bytes. -/
theorem zplPackedBytes_length (img : Img) :
    (zplPackedBytes img).length = bytesPerRow img.width * img.height := by
  unfold zplPackedBytes
  have : ∀ (l : List ℕ) (f : ℕ → List ℕ),
      (l.flatMap f).length = (l.map fun a => (f a).length).sum := by
    intro l f
    induction l with
    | nil => rfl
    | cons a l ih => simp [List.flatMap_cons, ih]
  rw [this]
  simp only [List.length_map, List.length_range]
  have : ((List.range img.height).map fun _ => bytesPerRow img.width)
      = List.replicate img.height (bytesPerRow img.width) := by
    simp [List.map_const]
  rw [this]
  simp [List.sum_replicate, smul_eq_mul, Nat.mul_comm]

/-- Decoding the packed bytes through the spec's rule reads back the ink
predicate, with padding positions reading background. -/
theorem zpl_unpack (img : Img) (r i : ℕ) (hr : r < img.height)
    (hi : i < 8 * bytesPerRow img.width) :
    unpackBit (zplPackedBytes img) (bytesPerRow img.width) r i
      = (decide (i < img.width) && img.pix i r) := by
  unfold unpackBit zplPackedBytes
  have hc : i / 8 < bytesPerRow img.width := Nat.div_lt_of_lt_mul (by omega)
  rw [getD_flatMap_range (fun y byteIdx => zplPackByte img y byteIdx)
    (bytesPerRow img.width) (List.range img.height) r (i / 8) (by simpa using hr) hc]
  rw [List.getD_eq_getElem _ _ (by simpa using hr)]
  simp only [List.getElem_range]
  have h8 : i % 8 < 8 := Nat.mod_lt _ (by norm_num)
  rw [zplPackByte_testBit img r (i / 8) (i % 8) h8]
  have hnat : i / 8 * 8 + i % 8 = i := by omega
  have hcast : ((i / 8 : ℕ) : ℤ) * 8 + ((i % 8 : ℕ) : ℤ) = (i : ℤ) := by omega
  rw [hnat, hcast]

/-! ## Claim C3 -/

/-- C3: both device encoders pack the bitmap identically;
`bytesPerRow = ceil(W / 8)` (characterized as the least byte count whose
8·`bytesPerRow` span covers `W`); the payload holds
`bytesPerRow * height` bytes; and decoding bit `i` of row `r` through the
spec's rule reconstructs the ink pattern exactly, padding bits (positions
`W ≤ i < 8 * bytesPerRow`) reading as background. -/
theorem c3_bit_packing_roundtrip :
    (∀ img : Img, zplPackedBytes img = epl2PackedBytes img)
    ∧ (∀ w : ℕ, w ≤ 8 * bytesPerRow w ∧ 8 * bytesPerRow w < w + 8)
    ∧ (∀ img : Img,
        (zplPackedBytes img).length = bytesPerRow img.width * img.height
        ∧ (epl2PackedBytes img).length = bytesPerRow img.width * img.height)
    ∧ (∀ (img : Img) (r i : ℕ), r < img.height → i < 8 * bytesPerRow img.width →
        unpackBit (zplPackedBytes img) (bytesPerRow img.width) r i
            = (decide (i < img.width) && img.pix i r)
          ∧ unpackBit (epl2PackedBytes img) (bytesPerRow img.width) r i
            = (decide (i < img.width) && img.pix i r)) := by
  refine ⟨fun img => rfl, ?_, ?_, ?_⟩
  · intro w
    unfold bytesPerRow
    omega
  · intro img
    exact ⟨zplPackedBytes_length img, zplPackedBytes_length img⟩
  · intro img r i hr hi
    exact ⟨zpl_unpack img r i hr hi, zpl_unpack img r i hr hi⟩

/-- A concrete 3×2 ink pattern exercising the round trip, with a padded
final byte (width 3 is not a multiple of 8). -/
def imgW : Img :=
  { width := 3, height := 2, pix := fun x y => decide (x = 0) || decide (y = 1) }

/-- Witness for C3 at a concrete image, row and bit position. -/
theorem c3_bit_packing_roundtrip_witness :
    (1 : ℕ) < imgW.height ∧ (5 : ℕ) < 8 * bytesPerRow imgW.width
      ∧ unpackBit (zplPackedBytes imgW) (bytesPerRow imgW.width) 1 5
          = (decide (5 < imgW.width) && imgW.pix 5 1) :=
  ⟨by decide, by decide,
    (c3_bit_packing_roundtrip.2.2.2 imgW 1 5 (by decide) (by decide)).1⟩

/-! ## Claim C4 -/

/-- Folding string concatenation accumulates lengths. -/
theorem foldl_append_length (l : List String) :
    ∀ s : String, (l.foldl (· ++ ·) s).length = s.length + (l.map String.length).sum := by
  induction l with
  | nil => intro s; simp
  | cons a l ih =>
    intro s
    simp only [List.foldl_cons, List.map_cons, List.sum_cons]
    rw [ih, String.length_append]
    omega

/-- `f"{b:02X}"` always contributes exactly two characters. -/
theorem hexByte_length (b : ℕ) : (hexByte b).length = 2 := rfl

/-- The joined hex payload is twice the packed byte count. -/
theorem zplHexString_length (img : Img) :
    (zplHexString img).length = 2 * (zplPackedBytes img).length := by
  unfold zplHexString
  have hjoin : String.join ((zplPackedBytes img).map hexByte)
      = ((zplPackedBytes img).map hexByte).foldl (· ++ ·) "" := rfl
  rw [hjoin, foldl_append_length]
  have : ((zplPackedBytes img).map hexByte).map String.length
      = List.replicate (zplPackedBytes img).length 2 := by
    rw [List.map_map]
    have hcomp : String.length ∘ hexByte = fun _ => 2 := by
      funext b
      exact hexByte_length b
    rw [hcomp]
    induction zplPackedBytes img with
    | nil => rfl
    | cons b l ih => simp [List.replicate_succ, ih]
  rw [this]
  simp [List.sum_replicate, smul_eq_mul, Nat.mul_comm]

/-- C4: the ZPL hex payload has length exactly `2 * totalBytes` where
`totalBytes = bytesPerRow * height` is the value declared in the
graphics-field parameters, and the EPL2 output is exactly the
graphics-write header followed by `totalBytes` raw payload bytes followed
by the finalize command. -/
theorem c4_payload_lengths :
    ∀ img : Img,
      (zplHexString img).length = 2 * (bytesPerRow img.width * img.height)
      ∧ (epl2PackedBytes img).length = bytesPerRow img.width * img.height
      ∧ image_to_epl2 img = epl2Header img ++ (epl2PackedBytes img ++ epl2Footer)
      ∧ ((image_to_epl2 img).drop (epl2Header img).length).take
          (bytesPerRow img.width * img.height) = epl2PackedBytes img
      ∧ (image_to_epl2 img).drop
          ((epl2Header img).length + bytesPerRow img.width * img.height)
          = epl2Footer := by
  intro img
  have hlen : (epl2PackedBytes img).length = bytesPerRow img.width * img.height :=
    zplPackedBytes_length img
  have h1 : image_to_epl2 img = epl2Header img ++ (epl2PackedBytes img ++ epl2Footer) := by
    rw [image_to_epl2, List.append_assoc]
  refine ⟨?_, hlen, h1, ?_, ?_⟩
  · rw [zplHexString_length, zplPackedBytes_length]
  · rw [h1, List.drop_left]
    rw [← hlen, List.take_left]
  · have h1' : image_to_epl2 img
        = (epl2Header img ++ epl2PackedBytes img) ++ epl2Footer := by
      rw [h1, List.append_assoc]
    rw [h1']
    have h2 : (epl2Header img).length + bytesPerRow img.width * img.height
        = (epl2Header img ++ epl2PackedBytes img).length := by
      rw [List.length_append, hlen]
    rw [h2, List.drop_left]

/-! ## Claim C1 -/

/-- Evaluating `pyTrunc` on a nonnegative rational through its floor. -/
theorem pyTrunc_nonneg_eq {q : ℚ} {n : ℤ} (h1 : 0 ≤ q) (h2 : ⌊q⌋ = n) :
    pyTrunc q = n := by
  unfold pyTrunc
  rw [if_pos h1, h2]

/-- Scenario A/B template: 50mm × 25mm rectangle at 203 dpi. -/
def tmplScenario : TemplateConfig :=
  { name := "scenario"
    dimensions := { width_mm := 50, height_mm := 25 }
    dpi := 203 }

/-- `mm_to_px(50, 203) = 399` (truncation of `399.606...`). -/
theorem mm_to_px_50_203 : mm_to_px 50 203 = 399 := by
  unfold mm_to_px
  exact pyTrunc_nonneg_eq (by norm_num) (by rw [Int.floor_eq_iff]; norm_num)

/-- `mm_to_px(25, 203) = 199` (truncation of `199.803...`). -/
theorem mm_to_px_25_203 : mm_to_px 25 203 = 199 := by
  unfold mm_to_px
  exact pyTrunc_nonneg_eq (by norm_num) (by rw [Int.floor_eq_iff]; norm_num)

/-- The Scenario A canvas is 399 × 199 pixels. -/
theorem create_scenario_size :
    (create_image tmplScenario).width = 399 ∧ (create_image tmplScenario).height = 199 := by
  constructor
  · show (pyTrunc ((50 : ℚ) * 203 / (254 / 10))).toNat = 399
    rw [pyTrunc_nonneg_eq (n := 399) (by norm_num) (by rw [Int.floor_eq_iff]; norm_num)]
    rfl
  · show (pyTrunc ((25 : ℚ) * 203 / (254 / 10))).toNat = 199
    rw [pyTrunc_nonneg_eq (n := 199) (by norm_num) (by rw [Int.floor_eq_iff]; norm_num)]
    rfl

/-- C1 counterexample: the pipeline truncates (`int()`), it does not
round.  `round(50 * 203 / 25.4) = 400`, but `mm_to_px(50, 203) = 399`,
and the 50mm × 25mm template at 203 dpi allocates a 399 × 199 canvas,
not 400 × 200. -/
theorem c1_counterexample :
    mm_to_px 50 203 = 399
    ∧ round ((50 : ℚ) * 203 / (254 / 10)) = 400
    ∧ (create_image tmplScenario).width = 399
    ∧ (create_image tmplScenario).height = 199 := by
  refine ⟨mm_to_px_50_203, ?_, create_scenario_size.1, create_scenario_size.2⟩
  rw [round_eq, Int.floor_eq_iff]
  norm_num

/-- C1 amended: every mm→px conversion in the pipeline computes
`int(mm * dpi / 25.4)` — truncation toward zero — and the same rule is
used by `mm_to_px`, by `_create_image` (both branches) and by the ZPL
label-offset conversion; in particular `mm_to_px(50, 203) = 399` and the
50mm × 25mm template at 203 dpi yields a 399 × 199 canvas. -/
theorem c1_amended :
    (∀ (mm : ℚ) (dpi : ℤ), mm_to_px mm dpi = pyTrunc (mm * dpi / (254 / 10)))
    ∧ (∀ tmpl : TemplateConfig,
        ¬ (tmpl.shape = .circle ∧ tmpl.dimensions.diameter_mm.getD 0 ≠ 0) →
          (create_image tmpl).width = (mm_to_px tmpl.dimensions.width_mm tmpl.dpi).toNat
          ∧ (create_image tmpl).height = (mm_to_px tmpl.dimensions.height_mm tmpl.dpi).toNat)
    ∧ (∀ tmpl : TemplateConfig,
        tmpl.shape = .circle ∧ tmpl.dimensions.diameter_mm.getD 0 ≠ 0 →
          (create_image tmpl).width
              = (mm_to_px (tmpl.dimensions.diameter_mm.getD 0) tmpl.dpi).toNat
          ∧ (create_image tmpl).height
              = (mm_to_px (tmpl.dimensions.diameter_mm.getD 0) tmpl.dpi).toNat)
    ∧ (∀ tmpl : TemplateConfig,
        pyTrunc (tmpl.label_offset_x_mm * tmpl.dpi / (254 / 10))
          = mm_to_px tmpl.label_offset_x_mm tmpl.dpi)
    ∧ mm_to_px 50 203 = 399
    ∧ (create_image tmplScenario).width = 399
    ∧ (create_image tmplScenario).height = 199 := by
  refine ⟨fun _ _ => rfl, ?_, ?_, fun _ => rfl, mm_to_px_50_203,
    create_scenario_size.1, create_scenario_size.2⟩
  · intro tmpl h
    simp only [create_image, if_neg h]
    exact ⟨rfl, rfl⟩
  · intro tmpl h
    simp only [create_image, if_pos h]
    exact ⟨rfl, rfl⟩

/-- Witness for C1 amended at the Scenario A template. -/
theorem c1_amended_witness :
    ¬ (tmplScenario.shape = .circle ∧ tmplScenario.dimensions.diameter_mm.getD 0 ≠ 0)
    ∧ (create_image tmplScenario).width
        = (mm_to_px tmplScenario.dimensions.width_mm tmplScenario.dpi).toNat :=
  ⟨by decide, (c1_amended.2.1 tmplScenario (by decide)).1⟩

/-! ## Claim C2 -/

/-- C2: the element dispatch routes Text, QRCode and DataMatrix elements
to their renderers, but a Code128 element matches no `isinstance` branch
of `_render_element` and is silently skipped: a template containing a
Code128 element renders pixel-identically to the same template with that
element removed, for every environment, context and canvas. -/
theorem c2_code128_skipped :
    (∀ (env : RenderEnv) (ctx : Context) (tmpl : TemplateConfig) (img : Img)
        (e : TextElement),
        render_element env (.text e) ctx tmpl img = renderText env e ctx tmpl img)
    ∧ (∀ (env : RenderEnv) (ctx : Context) (tmpl : TemplateConfig) (img : Img)
        (e : QRCodeElement),
        render_element env (.qrcode e) ctx tmpl img = renderQR env e ctx tmpl img)
    ∧ (∀ (env : RenderEnv) (ctx : Context) (tmpl : TemplateConfig) (img : Img)
        (e : DataMatrixElement),
        render_element env (.datamatrix e) ctx tmpl img = renderDM env e ctx tmpl img)
    ∧ (∀ (env : RenderEnv) (ctx : Context) (tmpl : TemplateConfig) (img : Img)
        (e : Code128Element),
        render_element env (.code128 e) ctx tmpl img = img)
    ∧ (∀ (env : RenderEnv) (ctx : Context) (tmpl : TemplateConfig) (img : Img)
        (pre post : List LabelElement) (e : Code128Element),
        renderElements env ctx tmpl (pre ++ .code128 e :: post) img
          = renderElements env ctx tmpl (pre ++ post) img) := by
  refine ⟨fun _ _ _ _ _ => rfl, fun _ _ _ _ _ => rfl, fun _ _ _ _ _ => rfl,
    fun _ _ _ _ _ => rfl, ?_⟩
  intro env ctx tmpl img pre post e
  unfold renderElements
  rw [List.foldl_append, List.foldl_append, List.foldl_cons]
  rfl

/-! ## Claim C7 -/

/-- A trivial concrete environment for closed witnesses: measurement is
the empty bbox, drawing leaves the canvas unchanged, the codecs return an
empty symbol / fail. -/
def env0 : RenderEnv :=
  { measure := fun _ _ => ⟨0, 0, 0, 0⟩
    drawText := fun img _ _ _ => img
    qrMake := fun _ _ => { width := 0, height := 0, pix := fun _ _ => false }
    dmEncode := fun _ => none }

/-- A fixed clock for closed witnesses. -/
def now0 : String → String := fun _ => "2026-01-01 00:00"

/-- A minimal 2mm × 2mm rectangle template with no fields and no
elements. -/
def tmplTiny : TemplateConfig :=
  { name := "tiny", dimensions := { width_mm := 2, height_mm := 2 } }

/-- C7 counterexample: rendering with the unsupported format `"png"` does
not fail — it silently takes the ZPL branch and returns a byte payload
identical to the `"zpl"` output.  No `UnsupportedFormatError` exists
anywhere in the source. -/
theorem c7_counterexample :
    render env0 now0 tmplTiny [] "png" = render env0 now0 tmplTiny [] "zpl"
    ∧ (render env0 now0 tmplTiny [] "png").isOk = true :=
  ⟨rfl, rfl⟩

/-- C7 amended: any requested format whose lowercase form is not
`"epl2"` is encoded as ZPL; `render` never raises an unsupported-format
error and always returns a payload when validation passes. -/
theorem c7_amended (env : RenderEnv) (nowStr : String → String)
    (tmpl : TemplateConfig) (ctx : Context) (fmt : String)
    (h : pyLower fmt ≠ "epl2") :
    render env nowStr tmpl ctx fmt = render env nowStr tmpl ctx "zpl" := by
  unfold render
  cases validate_data nowStr tmpl ctx with
  | error e => rfl
  | ok v =>
    simp only
    rw [if_neg h, if_neg (show ¬ (pyLower "zpl" = "epl2") by decide)]

/-- Witness for C7 amended at the format `"png"`. -/
theorem c7_amended_witness :
    pyLower "png" ≠ "epl2"
    ∧ render env0 now0 tmplTiny [] "png" = render env0 now0 tmplTiny [] "zpl" :=
  ⟨by decide, c7_amended env0 now0 tmplTiny [] "png" (by decide)⟩

/-! ## Claim C6 -/

/-- The `validate_data` loop splits over an append of field lists. -/
theorem validateFields_append (nowStr : String → String) (data : Context)
    (l₁ l₂ : List TemplateField) :
    ∀ r : Context,
      validateFields nowStr data (l₁ ++ l₂) r
        = match validateFields nowStr data l₁ r with
          | .error e => .error e
          | .ok r' => validateFields nowStr data l₂ r' := by
  induction l₁ with
  | nil => intro r; rfl
  | cons f rest ih =>
    intro r
    have hcons1 : validateFields nowStr data ((f :: rest) ++ l₂) r
        = match applyField nowStr data f r with
          | Except.error e => Except.error e
          | Except.ok r' => validateFields nowStr data (rest ++ l₂) r' := rfl
    have hcons2 : validateFields nowStr data (f :: rest) r
        = match applyField nowStr data f r with
          | Except.error e => Except.error e
          | Except.ok r' => validateFields nowStr data rest r' := rfl
    rw [hcons1, hcons2]
    cases applyField nowStr data f r with
    | error e => rfl
    | ok r' => exact ih r'

/-- A required, defaultless, non-datetime, non-user field missing from the
data raises the missing-field `ValueError`. -/
theorem applyField_missing (nowStr : String → String) (data : Context)
    (f : TemplateField) (result : Context)
    (hdt : f.type ≠ .datetime) (hu : f.type ≠ .user)
    (hmiss : ctxGet data f.name = none)
    (hdef : f.default = none) (hreq : f.required = true) :
    applyField nowStr data f result
      = .error ("Missing required field: " ++ f.name) := by
  unfold applyField
  rw [if_neg hdt, if_neg hu, hmiss, hdef, hreq]
  rfl

/-- A template whose only field is a required, defaultless `user` field. -/
def tmplUser : TemplateConfig :=
  { name := "user"
    dimensions := { width_mm := 2, height_mm := 2 }
    fields := [{ name := "user_field", type := .user, required := true,
                 default := none }] }

/-- C6 counterexample: `user_field` is required, has no default and no
value in the empty context, yet validation succeeds (the `user` branch
silently fills `""` before the required check is reached) and `render`
returns a payload instead of a validation error.  The same happens for
`datetime` fields, which are auto-stamped. -/
theorem c6_counterexample :
    tmplUser.fields = [{ name := "user_field", type := .user, required := true,
                         default := none, format := "" }]
    ∧ ctxGet [] "user_field" = none
    ∧ validate_data now0 tmplUser [] = .ok [("user_field", VStr "")]
    ∧ (render env0 now0 tmplUser [] "zpl").isOk = true :=
  ⟨rfl, rfl, rfl, rfl⟩

/-- C6 amended: for a required field with no supplied value and no
default whose type is neither `datetime` (auto-stamped with the current
time) nor `user` (silently defaulted to `""`), and which is the first
field at which validation fails, `render` stops with the wrapped
`ValueError` naming that field — validation runs before the canvas is
allocated, and the error short-circuits the whole canvas/encoding
pipeline. -/
theorem c6_amended (env : RenderEnv) (nowStr : String → String)
    (tmpl : TemplateConfig) (data : Context) (fmt : String)
    (pre post : List TemplateField) (f : TemplateField) (r1 : Context)
    (hfields : tmpl.fields = pre ++ f :: post)
    (hpre : validateFields nowStr data pre
        (data.filter fun kv => ¬ tmpl.fields.any fun g => g.name = kv.1) = .ok r1)
    (hdt : f.type ≠ .datetime) (hu : f.type ≠ .user)
    (hmiss : ctxGet data f.name = none)
    (hdef : f.default = none) (hreq : f.required = true) :
    render env nowStr tmpl data fmt
      = .error ("Invalid template data: Missing required field: " ++ f.name) := by
  have hval : validate_data nowStr tmpl data
      = .error ("Missing required field: " ++ f.name) := by
    unfold validate_data
    rw [hfields] at hpre ⊢
    rw [validateFields_append, hpre]
    show (match applyField nowStr data f r1 with
          | Except.error e => (Except.error e : Except String Context)
          | Except.ok r' => validateFields nowStr data post r') = _
    rw [applyField_missing nowStr data f r1 hdt hu hmiss hdef hreq]
  unfold render
  rw [hval]
  show Except.error ("Invalid template data: " ++ ("Missing required field: " ++ f.name)) = _
  rw [← String.append_assoc]
  rfl

/-- A template whose only field is required with no default (type
`string`). -/
def tmplReq : TemplateConfig :=
  { name := "req"
    dimensions := { width_mm := 2, height_mm := 2 }
    fields := [{ name := "title" }] }

/-- Witness for C6 amended: rendering `tmplReq` with an empty context
fails with the wrapped error naming `title`. -/
theorem c6_amended_witness :
    tmplReq.fields = [] ++ ({ name := "title" } : TemplateField) :: []
    ∧ render env0 now0 tmplReq [] "zpl"
        = .error ("Invalid template data: Missing required field: title") :=
  ⟨rfl, c6_amended env0 now0 tmplReq [] "zpl" [] [] { name := "title" } []
    rfl rfl (by decide) (by decide) rfl rfl rfl⟩

/-! ## Claim C9 -/

/-- An element's resolved text / payload data is empty: for text, a field
lookup and the literal text both resolve to `""`; for the code elements,
the field value resolves to `""`. -/
def resolvedEmpty : LabelElement → Context → Prop
  | .text e, ctx => resolveText e ctx = ""
  | .qrcode e, ctx => pyStr ((ctxGet ctx e.field).getD (VStr "")) = ""
  | .datamatrix e, ctx => pyStr ((ctxGet ctx e.field).getD (VStr "")) = ""
  | .code128 e, ctx => pyStr ((ctxGet ctx e.field).getD (VStr "")) = ""

/-- An element with empty resolved data paints nothing. -/
theorem render_element_empty_noop (env : RenderEnv) (e : LabelElement)
    (ctx : Context) (tmpl : TemplateConfig) (img : Img)
    (h : resolvedEmpty e ctx) :
    render_element env e ctx tmpl img = img := by
  cases e with
  | text te =>
    show renderText env te ctx tmpl img = img
    unfold renderText
    rw [show resolveText te ctx = "" from h, if_pos rfl]
  | qrcode qe =>
    show renderQR env qe ctx tmpl img = img
    unfold renderQR
    rw [show pyStr ((ctxGet ctx qe.field).getD (VStr "")) = "" from h, if_pos rfl,
      ite_self]
  | datamatrix de =>
    show renderDM env de ctx tmpl img = img
    unfold renderDM
    rw [show pyStr ((ctxGet ctx de.field).getD (VStr "")) = "" from h, if_pos rfl,
      ite_self]
  | code128 ce => rfl

/-- C9: an element whose resolved text (text elements: field lookup and
literal both empty) or payload data (code elements: empty field value)
is empty is a no-op — it leaves the canvas pixel-identical to the same
template with the element omitted, and (all renderers being total
functions) no error is raised. -/
theorem c9_empty_noop :
    (∀ (env : RenderEnv) (e : LabelElement) (ctx : Context)
        (tmpl : TemplateConfig) (img : Img), resolvedEmpty e ctx →
        render_element env e ctx tmpl img = img)
    ∧ (∀ (env : RenderEnv) (e : LabelElement) (ctx : Context)
        (tmpl : TemplateConfig) (img : Img) (pre post : List LabelElement),
        resolvedEmpty e ctx →
        renderElements env ctx tmpl (pre ++ e :: post) img
          = renderElements env ctx tmpl (pre ++ post) img) := by
  refine ⟨render_element_empty_noop, ?_⟩
  intro env e ctx tmpl img pre post h
  unfold renderElements
  rw [List.foldl_append, List.foldl_append, List.foldl_cons,
    render_element_empty_noop env e ctx tmpl _ h]

/-- A QR element bound to a field absent from the context. -/
def qrMissing : QRCodeElement := { field := "missing", x_mm := 5, y_mm := 5, size_mm := 4 }

/-- An all-ink 4 × 4 canvas. -/
def imgInk : Img := { width := 4, height := 4, pix := fun _ _ => true }

/-- Witness for C9: the missing-field QR element leaves an all-ink canvas
exactly as rendering without it would. -/
theorem c9_empty_noop_witness :
    resolvedEmpty (.qrcode qrMissing) []
    ∧ renderElements env0 [] tmplTiny ([] ++ LabelElement.qrcode qrMissing :: []) imgInk
        = renderElements env0 [] tmplTiny ([] ++ []) imgInk :=
  ⟨rfl, c9_empty_noop.2 env0 (.qrcode qrMissing) [] tmplTiny imgInk [] [] rfl⟩

/-! ## Claim C10 -/

/-- C10: once a QR or DataMatrix element reaches its paste (codec
available, nonempty field value, and for DataMatrix a successful encode),
every canvas pixel inside the `size × size` square anchored at
`(center - size // 2)` equals the corresponding symbol pixel — the paste
is opaque, independent of whatever the canvas held before, so prior ink
under a background module is forced back to background. -/
theorem c10_opaque_paste :
    (∀ (env : RenderEnv) (elt : QRCodeElement) (ctx : Context)
        (tmpl : TemplateConfig) (img : Img) (x y : ℤ),
        env.qrAvailable = true →
        pyStr ((ctxGet ctx elt.field).getD (VStr "")) ≠ "" →
        let field_value := pyStr ((ctxGet ctx elt.field).getD (VStr ""))
        let data := elt.pfx ++ field_value ++ elt.sfx
        let size := mm_to_px elt.size_mm tmpl.dpi
        let px := mm_to_px elt.x_mm tmpl.dpi - Int.fdiv size 2
        let py := mm_to_px elt.y_mm tmpl.dpi - Int.fdiv size 2
        px ≤ x → x < px + size.toNat → py ≤ y → y < py + size.toNat →
        (renderQR env elt ctx tmpl img).pix x y
          = (qrSymbol env elt data size).pix (x - px) (y - py))
    ∧ (∀ (env : RenderEnv) (elt : DataMatrixElement) (ctx : Context)
        (tmpl : TemplateConfig) (img : Img) (x y : ℤ) (sym : Img),
        env.dmAvailable = true →
        pyStr ((ctxGet ctx elt.field).getD (VStr "")) ≠ "" →
        let field_value := pyStr ((ctxGet ctx elt.field).getD (VStr ""))
        let data := elt.pfx ++ field_value ++ elt.sfx
        let size := mm_to_px elt.size_mm tmpl.dpi
        let px := mm_to_px elt.x_mm tmpl.dpi - Int.fdiv size 2
        let py := mm_to_px elt.y_mm tmpl.dpi - Int.fdiv size 2
        dmSymbol env data size = some sym →
        px ≤ x → x < px + size.toNat → py ≤ y → y < py + size.toNat →
        (renderDM env elt ctx tmpl img).pix x y = sym.pix (x - px) (y - py)) := by
  constructor
  · intro env elt ctx tmpl img x y hq hne
    intro fv data size px py h1 h2 h3 h4
    have hstep : renderQR env elt ctx tmpl img
        = paste img (qrSymbol env elt data size) px py := by
      unfold renderQR
      rw [hq, if_neg (show ¬ ¬ (true = true) by simp), if_neg hne]
    rw [hstep]
    unfold paste
    simp only
    rw [if_pos ⟨h1, h2, h3, h4⟩]
  · intro env elt ctx tmpl img x y sym hd hne
    intro fv data size px py hsym h1 h2 h3 h4
    have hstep : renderDM env elt ctx tmpl img
        = match dmSymbol env data size with
          | none => img
          | some dm_image => paste img dm_image px py := by
      unfold renderDM
      rw [hd, if_neg (show ¬ ¬ (true = true) by simp), if_neg hne]
    rw [hstep, hsym]
    show (paste img sym px py).pix x y = _
    unfold paste
    simp only
    have hw : sym.width = size.toNat := by
      rcases Option.map_eq_some'.mp hsym with ⟨enc, _, henc⟩
      rw [← henc]
      rfl
    have hh : sym.height = size.toNat := by
      rcases Option.map_eq_some'.mp hsym with ⟨enc, _, henc⟩
      rw [← henc]
      rfl
    rw [if_pos ⟨h1, by rw [hw]; exact h2, h3, by rw [hh]; exact h4⟩]

/-- An environment whose QR codec yields a 2 × 2 module grid with a
single ink module at (0, 0) — so the resized symbol has large white
(background) regions. -/
def envQR : RenderEnv :=
  { measure := fun _ _ => ⟨0, 0, 0, 0⟩
    drawText := fun img _ _ _ => img
    qrMake := fun _ _ => { width := 2, height := 2, pix := fun x y => decide (x = 0 ∧ y = 0) }
    dmEncode := fun _ => none }

/-- A QR element centred at (5mm, 5mm) with a 4mm side. -/
def qrV : QRCodeElement := { field := "v", x_mm := 5, y_mm := 5, size_mm := 4 }

/-- `mm_to_px(5, 203) = 39` (truncation of `39.96...`). -/
theorem mm_to_px_5_203 : mm_to_px 5 203 = 39 := by
  unfold mm_to_px
  exact pyTrunc_nonneg_eq (by norm_num) (by rw [Int.floor_eq_iff]; norm_num)

/-- `mm_to_px(4, 203) = 31` (truncation of `31.96...`). -/
theorem mm_to_px_4_203 : mm_to_px 4 203 = 31 := by
  unfold mm_to_px
  exact pyTrunc_nonneg_eq (by norm_num) (by rw [Int.floor_eq_iff]; norm_num)

/-- The point (54, 54) lies at or after the paste corner `39 - 31 // 2 = 24`. -/
theorem qr_corner_le : mm_to_px (5 : ℚ) 203 - Int.fdiv (mm_to_px (4 : ℚ) 203) 2 ≤ (54 : ℤ) := by
  rw [mm_to_px_5_203, mm_to_px_4_203]
  decide

/-- The point (54, 54) lies before the paste corner plus the symbol side
`24 + 31 = 55`. -/
theorem qr_corner_lt :
    (54 : ℤ) < mm_to_px (5 : ℚ) 203 - Int.fdiv (mm_to_px (4 : ℚ) 203) 2
      + (((mm_to_px (4 : ℚ) 203).toNat : ℕ) : ℤ) := by
  rw [mm_to_px_5_203, mm_to_px_4_203]
  decide

/-- Witness for C10: at pixel (54, 54) — inside the pasted square — the
prior canvas was ink, the symbol module there is background, and the
rendered pixel equals the symbol pixel (hence is forced to background). -/
theorem c10_opaque_paste_witness :
    imgInk.pix 54 54 = true
    ∧ (qrSymbol envQR qrV ("" ++ "X" ++ "") (mm_to_px 4 203)).pix
        (54 - (mm_to_px 5 203 - Int.fdiv (mm_to_px 4 203) 2))
        (54 - (mm_to_px 5 203 - Int.fdiv (mm_to_px 4 203) 2)) = false
    ∧ (renderQR envQR qrV [("v", VStr "X")] tmplTiny imgInk).pix 54 54
        = (qrSymbol envQR qrV ("" ++ "X" ++ "") (mm_to_px 4 203)).pix
            (54 - (mm_to_px 5 203 - Int.fdiv (mm_to_px 4 203) 2))
            (54 - (mm_to_px 5 203 - Int.fdiv (mm_to_px 4 203) 2)) := by
  refine ⟨rfl, ?_, ?_⟩
  · rw [mm_to_px_5_203, mm_to_px_4_203]
    decide
  · exact c10_opaque_paste.1 envQR qrV [("v", VStr "X")] tmplTiny imgInk 54 54 rfl
      (by decide) qr_corner_le qr_corner_lt qr_corner_le qr_corner_lt

/-! ## Claim C5 -/

/-- Invariant of the font-size binary search: the result is bounded by
the initial interval, and is either the untested initial lower bound or a
size that was confirmed to fit. -/
theorem fontSizeLoop_spec (fits : ℕ → Bool) :
    ∀ (n lo hi : ℕ), hi - lo = n →
      lo ≤ fontSizeLoop fits lo hi
      ∧ fontSizeLoop fits lo hi ≤ max lo hi
      ∧ (fontSizeLoop fits lo hi = lo ∨ fits (fontSizeLoop fits lo hi) = true) := by
  intro n
  induction n using Nat.strong_induction_on with
  | _ n ih =>
    intro lo hi hn
    by_cases h : hi - lo > 2
    · rw [fontSizeLoop, dif_pos h]
      by_cases hf : fits ((lo + hi) / 2) = true
      · rw [if_pos hf]
        obtain ⟨h1, h2, h3⟩ := ih (hi - (lo + hi) / 2) (by omega) ((lo + hi) / 2) hi rfl
        refine ⟨by omega, by omega, ?_⟩
        rcases h3 with h3 | h3
        · right; rw [h3]; exact hf
        · right; exact h3
      · rw [if_neg hf]
        obtain ⟨h1, h2, h3⟩ := ih ((lo + hi) / 2 - lo) (by omega) lo ((lo + hi) / 2) rfl
        exact ⟨h1, by omega, h3⟩
    · rw [fontSizeLoop, dif_neg h]
      exact ⟨le_refl lo, le_max_left lo hi, Or.inl rfl⟩

/-- A measurement environment in which each character is 6 units wide and
a line is as tall as its font size. -/
def envC5 : RenderEnv :=
  { measure := fun font line => ⟨0, 0, 6 * (line.length : ℤ), (font.2 : ℤ)⟩
    drawText := fun img _ _ _ => img
    qrMake := fun _ _ => { width := 0, height := 0, pix := fun _ _ => false }
    dmEncode := fun _ => none }

/-- A 20-character single word: 120 units wide even at the minimum size. -/
def textC5 : String := "WWWWWWWWWWWWWWWWWWWW"

/-- An auto-scaled, non-wrapping text element with requested size 20. -/
def eltC5 : TextElement :=
  { bounds := { x_mm := 0, y_mm := 0, width_mm := 10, height_mm := 5 }
    font_size := 20
    auto_scale := true }

/-- C5 counterexample: in a 50 × 20 box no candidate size fits (every
line is 120 units wide), the binary search still returns the untested
lower bound 6, and size 6 does not fit — the chosen size is not "a value
confirmed to fit" and the rendered text does not fit its box. -/
theorem c5_counterexample :
    find_optimal_font_size envC5 textC5 eltC5 50 20 = 6
    ∧ text_fits envC5 textC5 eltC5 50 20 6 = false := by
  have h13 : text_fits envC5 textC5 eltC5 50 20 13 = false := by decide
  have h9 : text_fits envC5 textC5 eltC5 50 20 9 = false := by decide
  have h7 : text_fits envC5 textC5 eltC5 50 20 7 = false := by decide
  constructor
  · show fontSizeLoop (fun mid => text_fits envC5 textC5 eltC5 50 20 mid) 6 20 = 6
    rw [fontSizeLoop, dif_pos (by norm_num)]
    norm_num [h13]
    rw [fontSizeLoop, dif_pos (by norm_num)]
    norm_num [h9]
    rw [fontSizeLoop, dif_pos (by norm_num)]
    norm_num [h7]
    rw [fontSizeLoop, dif_neg (by norm_num)]
  · decide

/-- C5 amended: the auto-scale search runs over `[6, requestedSize]`
with tolerance 2, but a candidate's fit test compares the plain sum of
line heights (with no `line_spacing` contribution) against the box height
and every line's width against the full box width (never
chord-constrained), and the returned size is only guaranteed to fit when
it is not the untested lower bound: the result always lies in
`[6, max 6 requestedSize]` and is either `6` itself or a size confirmed
to fit. -/
theorem c5_amended (env : RenderEnv) (text : String) (elt : TextElement)
    (width height : ℤ) :
    MIN_FONT_SIZE ≤ find_optimal_font_size env text elt width height
    ∧ find_optimal_font_size env text elt width height ≤ max MIN_FONT_SIZE elt.font_size
    ∧ (find_optimal_font_size env text elt width height = MIN_FONT_SIZE
        ∨ text_fits env text elt width height
            (find_optimal_font_size env text elt width height) = true) := by
  unfold find_optimal_font_size
  exact fontSizeLoop_spec _ (elt.font_size - MIN_FONT_SIZE) MIN_FONT_SIZE elt.font_size rfl

/-! ## Claim C8 -/

/-- The validation loop consults the clock only in the `datetime` branch. -/
theorem validateFields_now_indep (now1 now2 : String → String) (data : Context) :
    ∀ (fields : List TemplateField) (result : Context),
      (∀ f ∈ fields, f.type ≠ .datetime) →
      validateFields now1 data fields result
        = validateFields now2 data fields result := by
  intro fields
  induction fields with
  | nil => intro r _; rfl
  | cons f rest ih =>
    intro r h
    have hdt : f.type ≠ .datetime := h f (List.mem_cons_self f rest)
    have hf : applyField now1 data f r = applyField now2 data f r := by
      unfold applyField
      rw [if_neg hdt, if_neg hdt]
    have hcons1 : validateFields now1 data (f :: rest) r
        = match applyField now1 data f r with
          | Except.error e => Except.error e
          | Except.ok r' => validateFields now1 data rest r' := rfl
    have hcons2 : validateFields now2 data (f :: rest) r
        = match applyField now2 data f r with
          | Except.error e => Except.error e
          | Except.ok r' => validateFields now2 data rest r' := rfl
    rw [hcons1, hcons2, hf]
    cases applyField now2 data f r with
    | error e => rfl
    | ok r' => exact ih r' fun g hg => h g (List.mem_cons_of_mem f hg)

/-- C8 amended: for templates with no `datetime`-typed field, `render` is
a pure function of `(template, context, format)` — in particular its
output does not depend on the ambient clock, so two calls with identical
inputs produce byte-identical output.  Templates with a `datetime` field
are stamped with the render-time clock and are exempt. -/
theorem c8_amended (env : RenderEnv) (now1 now2 : String → String)
    (tmpl : TemplateConfig) (ctx : Context) (fmt : String)
    (h : ∀ f ∈ tmpl.fields, f.type ≠ .datetime) :
    render env now1 tmpl ctx fmt = render env now2 tmpl ctx fmt := by
  unfold render validate_data
  rw [validateFields_now_indep now1 now2 ctx tmpl.fields _ h]

/-- Witness for C8 amended at a template with no fields and two clocks
that disagree. -/
theorem c8_amended_witness :
    (∀ f ∈ tmplTiny.fields, f.type ≠ FieldType.datetime)
    ∧ render env0 (fun _ => "A") tmplTiny [] "zpl"
        = render env0 (fun _ => "B") tmplTiny [] "zpl" :=
  ⟨by simp [tmplTiny], c8_amended env0 (fun _ => "A") (fun _ => "B") tmplTiny [] "zpl"
    (by simp [tmplTiny])⟩

/-- A 1mm × 1mm template with a `datetime` field rendered through a text
element. -/
def tmplDT : TemplateConfig :=
  { name := "dt"
    dimensions := { width_mm := 1, height_mm := 1 }
    fields := [{ name := "ts", type := .datetime, required := true, default := none }]
    elements := [.text { field := some "ts",
                         bounds := { x_mm := 0, y_mm := 0, width_mm := 1,
                                     height_mm := 1 } }] }

/-- An environment whose rasterizer distinguishes the two timestamps (a
real font rasterizer draws different glyphs for different strings): it
inks pixel (0, 0) exactly when the drawn line is `"A"`. -/
def envDT : RenderEnv :=
  { measure := fun font line => ⟨0, 0, (line.length : ℤ), (font.2 : ℤ)⟩
    drawText := fun img _ line _ =>
      { img with pix := fun x y =>
          if x = 0 ∧ y = 0 ∧ line = "A" then true else img.pix x y }
    qrMake := fun _ _ => { width := 0, height := 0, pix := fun _ _ => false }
    dmEncode := fun _ => none }

/-- The 1mm × 1mm canvas is 7 × 7 pixels. -/
theorem create_dt :
    create_image tmplDT = { width := 7, height := 7, pix := fun _ _ => false } := by
  have h1 : pyTrunc ((1 : ℚ) * ((203 : ℤ) : ℚ) / (254 / 10)) = 7 :=
    pyTrunc_nonneg_eq (by norm_num) (by rw [Int.floor_eq_iff]; norm_num)
  show ({ width := (pyTrunc ((1 : ℚ) * ((203 : ℤ) : ℚ) / (254 / 10))).toNat,
          height := (pyTrunc ((1 : ℚ) * ((203 : ℤ) : ℚ) / (254 / 10))).toNat,
          pix := fun _ _ => false } : Img) = _
  rw [h1]
  rfl

/-- The configured label offsets of `tmplDT` convert to zero dots. -/
theorem off_dt : pyTrunc ((0 : ℚ) * ((203 : ℤ) : ℚ) / (254 / 10)) = 0 := by
  apply pyTrunc_nonneg_eq
  · norm_num
  · norm_num

/-- C8 counterexample: two renders of the identical
`(template, context, format)` triple, taken at clock readings `"A"` and
`"B"`, produce different byte payloads — the datetime field is stamped
with `datetime.now()` inside `validate_data`, so `render` is not a
function of its three declared inputs alone. -/
theorem c8_counterexample :
    (render envDT (fun _ => "A") tmplDT [] "zpl").toOption.getD []
      ≠ (render envDT (fun _ => "B") tmplDT [] "zpl").toOption.getD [] := by
  have hstep : ∀ nowS : String → String,
      render envDT nowS tmplDT [] "zpl"
        = .ok (image_to_zpl
            (renderElements envDT [("ts", VStr (nowS DEFAULT_DATETIME_FORMAT))] tmplDT
              tmplDT.elements (create_image tmplDT))
            (pyTrunc ((0 : ℚ) * ((203 : ℤ) : ℚ) / (254 / 10)))
            (pyTrunc ((0 : ℚ) * ((203 : ℤ) : ℚ) / (254 / 10)))
            none) := fun nowS => rfl
  rw [hstep, hstep, create_dt, off_dt]
  decide

end Labelable
